import Mathlib

/-!
Verification development for the nativebpm/camunda external-task worker
library. The definitions below are a shallow embedding of the Go source:

* Variable constructors and Variable type: camunda.go (StringVariable,
  JSONVariable, ListVariable) and internal/builder (Variable struct).
* The registry, poll loop and dispatch: internal/worker/worker.go
  (Worker, RegisterHandler, Start, fetchAndLock, processTask).
* The task-completion / task-failure builders: internal/builder
  (TaskCompletion, TaskFailure, TaskUnlock).
* The handler adapter of the public package: camunda.go (handlerAdapter).
* ExternalTask.UnmarshalJSON from internal/worker/worker.go.

External collaborators (HTTP transport, encoding/json, time.Parse) are
modelled abstractly: HTTP sends are represented by the request values the
code builds, json.Marshal by a function on a small value universe, and
time.Parse by an arbitrary parse function parameter.
-/

/-- Model of the Go value universe handed to json.Marshal. The constructor
unsupported stands for values encoding/json rejects (channels, functions,
NaN floats, ...); the scalar constructors marshal successfully. -/
inductive GoValue where
  | null
  | str (s : String)
  | int (n : Int)
  | bool (b : Bool)
  | unsupported (desc : String)
deriving DecidableEq

/-- Model of encoding/json Marshal on a single value: scalars succeed,
unsupported values fail with the stdlib error text. -/
def jsonMarshal : GoValue → Except String String
  | GoValue.null => Except.ok "null"
  | GoValue.str s => Except.ok ("\"" ++ s ++ "\"")
  | GoValue.int n => Except.ok (toString n)
  | GoValue.bool b => Except.ok (if b then "true" else "false")
  | GoValue.unsupported desc => Except.error ("json: unsupported type: " ++ desc)

/-- Marshal the elements of a slice left to right, stopping at the first
failure, as encoding/json does for Go slices. -/
def jsonMarshalElems : List GoValue → Except String (List String)
  | [] => Except.ok []
  | x :: rest =>
    match jsonMarshal x, jsonMarshalElems rest with
    | Except.ok s, Except.ok ss => Except.ok (s :: ss)
    | Except.error e, _ => Except.error e
    | _, Except.error e => Except.error e

/-- Model of encoding/json Marshal on a Go slice value. -/
def jsonMarshalList (xs : List GoValue) : Except String String :=
  match jsonMarshalElems xs with
  | Except.ok ss => Except.ok ("[" ++ String.intercalate "," ss ++ "]")
  | Except.error e => Except.error e

/-- The valueInfo map attached by JSONVariable / ListVariable
(internal/builder Variable.ValueInfo is an untyped map; the code only ever
stores these two keys). -/
structure ValueInfoMap where
  objectTypeName : String
  serializationDataFormat : String
deriving DecidableEq

/-- internal/builder Variable: a Camunda variable with a value, a type tag
and an optional valueInfo. The Go field Type is spelled type_ here because
Type is a Lean keyword. -/
structure Variable where
  Value : GoValue
  type_ : String
  ValueInfo : Option ValueInfoMap
deriving DecidableEq

/-- camunda.StringVariable: a String-typed variable. -/
def StringVariable (value : String) : Variable :=
  { Value := GoValue.str value, type_ := "String", ValueInfo := none }

/-- camunda.JSONVariable: serialize the value to JSON; on failure return the
error as a String-typed variable, otherwise an Object-typed variable with
the LinkedHashMap valueInfo. -/
def JSONVariable (value : GoValue) : Variable :=
  match jsonMarshal value with
  | Except.error err =>
    { Value := GoValue.str ("ERROR: failed to marshal JSON: " ++ err),
      type_ := "String", ValueInfo := none }
  | Except.ok s =>
    { Value := GoValue.str s, type_ := "Object",
      ValueInfo := some { objectTypeName := "java.util.LinkedHashMap",
                          serializationDataFormat := "application/json" } }

/-- camunda.ListVariable: serialize the slice to JSON; on failure return the
error as a String-typed variable, otherwise an Object-typed variable with
the ArrayList valueInfo. -/
def ListVariable (value : List GoValue) : Variable :=
  match jsonMarshalList value with
  | Except.error err =>
    { Value := GoValue.str ("ERROR: failed to marshal list: " ++ err),
      type_ := "String", ValueInfo := none }
  | Except.ok s =>
    { Value := GoValue.str s, type_ := "Object",
      ValueInfo := some { objectTypeName := "java.util.ArrayList",
                          serializationDataFormat := "application/json" } }

/-- Opaque model of Go time.Time values produced by time.Parse. -/
structure GoTime where
  raw : String
deriving DecidableEq

/-- internal/worker ExternalTask. Correlation fields the worker passes
through untouched (businessKey, tenantId, priority, activity/execution and
process identifiers, retries, error fields) are elided. -/
structure ExternalTask where
  ID : String
  TopicName : String
  WorkerID : String
  LockExpirationTime : Option GoTime
  Variables : List (String × Variable)
deriving DecidableEq

/-- Go map write m[k] = v, modelled on an association list: replace the
binding if the key is present, otherwise add it. -/
def mapSet {α : Type} : List (String × α) → String → α → List (String × α)
  | [], k, v => [(k, v)]
  | (k', v') :: rest, k, v =>
    if k' = k then (k, v) :: rest else (k', v') :: mapSet rest k v

/-- Go map read m[k], modelled on an association list. -/
def mapLookup {α : Type} : List (String × α) → String → Option α
  | [], _ => none
  | (k', v') :: rest, k => if k' = k then some v' else mapLookup rest k

/-- Iterating a Go for-range over vars and writing each pair into m, as
TaskCompletion.Variables does. -/
def setVars (m : List (String × Variable)) (vars : List (String × Variable)) :
    List (String × Variable) :=
  vars.foldl (fun acc kv => mapSet acc kv.1 kv.2) m

/-- internal/worker TopicRequest: one subscription entry of the poll
request. The optional filter fields (localVariables, businessKey, process
definition id/key, tenantIds) are never set by RegisterHandler and are
elided. -/
structure TopicRequest where
  TopicName : String
  LockDuration : Int
  Variables : List String
deriving DecidableEq

/-- The payload and path parameter of the POST to
/external-task/\x7btaskID\x7d/complete built by TaskCompletion.Execute. -/
structure CompleteRequest where
  taskID : String
  WorkerID : String
  Variables : List (String × Variable)
  LocalVariables : List (String × Variable)
deriving DecidableEq

/-- The payload and path parameter of the POST to
/external-task/\x7btaskID\x7d/failure built by TaskFailure.Execute. -/
structure FailRequest where
  taskID : String
  WorkerID : String
  ErrorMessage : String
  ErrorDetails : String
  Retries : Int
  RetryTimeout : Int
deriving DecidableEq

/-- The payload and path parameter of the POST to
/external-task/\x7btaskID\x7d/unlock built by TaskUnlock.Execute. -/
structure UnlockRequest where
  taskID : String
  WorkerID : String
deriving DecidableEq

/-- internal/builder TaskCompletion builder state (httpClient and ctx are
transport concerns and elided). -/
structure TaskCompletion where
  workerID : String
  taskID : String
  variables_ : List (String × Variable)
  localVariables : List (String × Variable)

/-- internal/builder NewTaskCompletion: fresh builder with empty maps. -/
def NewTaskCompletion (workerID taskID : String) : TaskCompletion :=
  { workerID := workerID, taskID := taskID, variables_ := [], localVariables := [] }

/-- TaskCompletion.Variables: merge vars into the builder map. -/
def TaskCompletion.Variables (tc : TaskCompletion)
    (vars : List (String × Variable)) : TaskCompletion :=
  { tc with variables_ := setVars tc.variables_ vars }

/-- TaskCompletion.Execute: the request it sends (response handling is
transport and elided). -/
def TaskCompletion.Execute (tc : TaskCompletion) : CompleteRequest :=
  { taskID := tc.taskID, WorkerID := tc.workerID,
    Variables := tc.variables_, LocalVariables := tc.localVariables }

/-- internal/builder TaskFailure builder state. -/
structure TaskFailure where
  workerID : String
  taskID : String
  errorMessage : String
  errorDetails : String
  retries : Int
  retryTimeout : Int

/-- internal/builder NewTaskFailure: fresh builder, retries and
retryTimeout zero. -/
def NewTaskFailure (workerID taskID : String) : TaskFailure :=
  { workerID := workerID, taskID := taskID, errorMessage := "",
    errorDetails := "", retries := 0, retryTimeout := 0 }

/-- TaskFailure.ErrorMessage setter. -/
def TaskFailure.ErrorMessage (tf : TaskFailure) (msg : String) : TaskFailure :=
  { tf with errorMessage := msg }

/-- TaskFailure.ErrorDetails setter. -/
def TaskFailure.ErrorDetails (tf : TaskFailure) (details : String) : TaskFailure :=
  { tf with errorDetails := details }

/-- TaskFailure.Retries setter. -/
def TaskFailure.Retries (tf : TaskFailure) (count : Int) : TaskFailure :=
  { tf with retries := count }

/-- TaskFailure.RetryTimeout setter. -/
def TaskFailure.RetryTimeout (tf : TaskFailure) (timeout : Int) : TaskFailure :=
  { tf with retryTimeout := timeout }

/-- TaskFailure.Execute: the request it sends. -/
def TaskFailure.Execute (tf : TaskFailure) : FailRequest :=
  { taskID := tf.taskID, WorkerID := tf.workerID,
    ErrorMessage := tf.errorMessage, ErrorDetails := tf.errorDetails,
    Retries := tf.retries, RetryTimeout := tf.retryTimeout }

/-- internal/builder TaskUnlock builder state. -/
structure TaskUnlock where
  workerID : String
  taskID : String

/-- internal/builder NewTaskUnlock. -/
def NewTaskUnlock (workerID taskID : String) : TaskUnlock :=
  { workerID := workerID, taskID := taskID }

/-- TaskUnlock.Execute: the request it sends. -/
def TaskUnlock.Execute (tu : TaskUnlock) : UnlockRequest :=
  { taskID := tu.taskID, WorkerID := tu.workerID }

/-- How a handler invocation ends: normal return with nil error, normal
return with a non-nil error, or a Go panic unwinding out of Handle. -/
inductive HandlerOutcome where
  | ok
  | err (msg : String)
  | panics (msg : String)
deriving DecidableEq

/-- A call the handler makes against the complete / fail capabilities it
was handed. -/
inductive HandlerCall where
  | callComplete (vars : List (String × Variable))
  | callFail (errorMessage errorDetails : String) (retries retryTimeout : Int)
deriving DecidableEq

/-- internal/worker TaskHandler: the handler behaviour, as the calls it
makes on its capabilities plus how its Handle invocation ends. -/
structure TaskHandler where
  run : ExternalTask → List HandlerCall × HandlerOutcome

/-- Observable effects of one dispatch: log lines and requests sent. -/
inductive Effect where
  | logError (msg : String)
  | logInfo (msg : String)
  | sentComplete (req : CompleteRequest)
  | sentFail (req : FailRequest)
  | sentUnlock (req : UnlockRequest)
deriving DecidableEq

/-- Whether a Go function call returns normally or a panic escapes it. -/
inductive GoExit where
  | normal
  | panicked (msg : String)
deriving DecidableEq

/-- The observable result of Worker.processTask on one task. invoked is
none exactly when no handler invocation happened. -/
structure DispatchResult where
  effects : List Effect
  invoked : Option HandlerOutcome
  exit : GoExit
deriving DecidableEq

/-- internal/worker Worker state (httpClient and logger elided). -/
structure Worker where
  workerID : String
  handlers : List (String × TaskHandler)
  topics : List TopicRequest
  maxTasks : Int
  pollIntervalMs : Int

/-- internal/worker New: empty registry, maxTasks 10, pollInterval 5s. -/
def Worker.New (workerID : String) : Worker :=
  { workerID := workerID, handlers := [], topics := [],
    maxTasks := 10, pollIntervalMs := 5000 }

/-- internal/worker Worker.RegisterHandler: write the handler into the
handlers map and append a TopicRequest to the topics slice. -/
def Worker.RegisterHandler (w : Worker) (topicName : String)
    (handler : TaskHandler) (lockDuration : Int) (variableNames : List String) :
    Worker :=
  { w with
    handlers := mapSet w.handlers topicName handler,
    topics := w.topics ++
      [{ TopicName := topicName, LockDuration := lockDuration,
         Variables := variableNames }] }

/-- The fetchAndLock request payload Worker.fetchAndLock posts to
/external-task/fetchAndLock (the send and response decoding are transport
and elided). -/
structure FetchAndLockRequest where
  WorkerID : String
  MaxTasks : Int
  UsePriority : Bool
  Topics : List TopicRequest
deriving DecidableEq

/-- internal/worker Worker.fetchAndLock: the request it builds from the
worker state. -/
def Worker.fetchAndLock (w : Worker) : FetchAndLockRequest :=
  { WorkerID := w.workerID, MaxTasks := w.maxTasks, UsePriority := true,
    Topics := w.topics }

/-- The complete closure processTask builds for a task: a
NewTaskCompletion bound to the worker id and the task id, fed the supplied
variables and executed. -/
def completeFuncFor (w : Worker) (task : ExternalTask)
    (vars : List (String × Variable)) : CompleteRequest :=
  ((NewTaskCompletion w.workerID task.ID).Variables vars).Execute

/-- The fail closure processTask builds for a task: a NewTaskFailure bound
to the worker id and the task id, fed message, details, retries and retry
timeout and executed. -/
def failFuncFor (w : Worker) (task : ExternalTask)
    (errorMessage errorDetails : String) (retries retryTimeout : Int) :
    FailRequest :=
  (((((NewTaskFailure w.workerID task.ID).ErrorMessage errorMessage).ErrorDetails
      errorDetails).Retries retries).RetryTimeout retryTimeout).Execute

/-- Interpret one handler capability call as the request effect it causes,
through the closures bound to this worker and task. -/
def interpCall (w : Worker) (task : ExternalTask) : HandlerCall → Effect
  | HandlerCall.callComplete vars => Effect.sentComplete (completeFuncFor w task vars)
  | HandlerCall.callFail m d r t => Effect.sentFail (failFuncFor w task m d r t)

/-- internal/worker Worker.processTask: look the topic up in the handlers
map; if absent log an error and return; otherwise run the handler with the
two bound closures and discard its returned error. There is no recover, so
a handler panic escapes processTask. -/
def Worker.processTask (w : Worker) (task : ExternalTask) : DispatchResult :=
  match mapLookup w.handlers task.TopicName with
  | none =>
    { effects := [Effect.logError ("No handler registered for topic " ++ task.TopicName)],
      invoked := none, exit := GoExit.normal }
  | some handler =>
    let res := handler.run task
    { effects := res.1.map (interpCall w task),
      invoked := some res.2,
      exit := match res.2 with
        | HandlerOutcome.panics m => GoExit.panicked m
        | _ => GoExit.normal }

/-- One iteration of the environment as the poll loop observes it: whether
the driving context is already cancelled at the top of the iteration, and
what the fetchAndLock call would return. -/
structure PollStep where
  cancelled : Bool
  fetch : Except String (List ExternalTask)

/-- Observable events of the poll loop, in order: stopping on
cancellation, a failed fetch (logged), the pollInterval sleep, the
dispatch of a non-empty batch (one goroutine per task, fire and forget),
and the fixed one-second pause after a dispatch. -/
inductive LoopEvent where
  | stopped
  | fetchFailed (err : String)
  | sleptPollInterval
  | dispatched (tasks : List ExternalTask)
  | sleptBriefPause
deriving DecidableEq

/-- internal/worker Worker.Start over a finite trace of environment
iterations: check cancellation at the top of each iteration and return if
observed; on fetch error log and sleep pollInterval; on an empty batch
sleep pollInterval; otherwise spawn one processTask goroutine per task
(fire and forget, never joined, so the spawned outcomes do not feed back
into the loop) and take the brief pause. -/
def Worker.Start (w : Worker) : List PollStep → List LoopEvent
  | [] => []
  | step :: rest =>
    if step.cancelled then [LoopEvent.stopped]
    else
      match step.fetch with
      | Except.error e =>
        LoopEvent.fetchFailed e :: LoopEvent.sleptPollInterval :: w.Start rest
      | Except.ok [] =>
        LoopEvent.sleptPollInterval :: w.Start rest
      | Except.ok tasks =>
        LoopEvent.dispatched tasks :: LoopEvent.sleptBriefPause :: w.Start rest

/-- A registration call record: topic, handler, lock duration, variable
names. -/
structure RegEntry where
  topic : String
  handler : TaskHandler
  lockDuration : Int
  variableNames : List String

/-- Perform a sequence of RegisterHandler calls, as user code does before
Start. -/
def registerAll (w : Worker) : List RegEntry → Worker
  | [] => w
  | r :: rest =>
    registerAll (w.RegisterHandler r.topic r.handler r.lockDuration r.variableNames) rest

/-- The TopicRequest a registration contributes to the poll request. -/
def topicRequestOf (r : RegEntry) : TopicRequest :=
  { TopicName := r.topic, LockDuration := r.lockDuration, Variables := r.variableNames }

/-- Spec-side definition, following the spec words only: the most recently
registered handler for a topic, to be compared with what the registry
built from the source returns. -/
def specLastRegistered (regs : List RegEntry) (topic : String) : Option TaskHandler :=
  (regs.reverse.find? (fun r => r.topic = topic)).map (fun r => r.handler)

/-- The arguments of one call to the fail capability made by the handler
adapter. -/
structure FailArgs where
  errorMessage : String
  errorDetails : String
  retries : Int
  retryTimeout : Int
deriving DecidableEq

/-- camunda handlerAdapter: wraps a public TaskHandler, whose Handle
returns an optional error message. -/
structure handlerAdapter where
  handler : ExternalTask → Option String

/-- camunda handlerAdapter.Handle: run the wrapped handler; on a non-nil
error call fail with the fixed policy arguments (the fail calls made are
returned alongside the propagated error). -/
def handlerAdapter.Handle (ha : handlerAdapter) (task : ExternalTask) :
    List FailArgs × Option String :=
  match ha.handler task with
  | some e =>
    ([{ errorMessage := "Task processing failed", errorDetails := e,
        retries := 3, retryTimeout := 30000 }], some e)
  | none => ([], none)

/-- The four layout strings ExternalTask.UnmarshalJSON tries, in order:
the Camunda format with and without milliseconds, RFC3339 and
RFC3339Nano. -/
def lockTimeFormats : List String :=
  ["2006-01-02T15:04:05.999-0700",
   "2006-01-02T15:04:05-0700",
   "2006-01-02T15:04:05Z07:00",
   "2006-01-02T15:04:05.999999999Z07:00"]

/-- The format loop of UnmarshalJSON: try each layout in order with
time.Parse (abstract here) and keep the first success. -/
def tryParseFormats (parse : String → String → Option GoTime) :
    List String → String → Option GoTime
  | [], _ => none
  | f :: rest, s =>
    match parse f s with
    | some t => some t
    | none => tryParseFormats parse rest s

/-- The aux struct UnmarshalJSON decodes into: the raw lockExpirationTime
string (absent field gives none) plus the Alias-decoded task, whose
LockExpirationTime the shadowing aux field leaves nil. -/
structure AuxExternalTask where
  LockExpirationTime : Option String
  Alias : ExternalTask

/-- internal/worker ExternalTask.UnmarshalJSON after the generic decode
into aux (the generic decode itself is encoding/json and external): if the
lockExpirationTime string is present and non-empty, parse it with the four
formats and fail if none matches; otherwise the field stays nil. -/
def ExternalTask.UnmarshalJSON (parse : String → String → Option GoTime)
    (aux : AuxExternalTask) : Except String ExternalTask :=
  match aux.LockExpirationTime with
  | none => Except.ok { aux.Alias with LockExpirationTime := none }
  | some s =>
    if s = "" then Except.ok { aux.Alias with LockExpirationTime := none }
    else
      match tryParseFormats parse lockTimeFormats s with
      | some t => Except.ok { aux.Alias with LockExpirationTime := some t }
      | none => Except.error ("failed to parse lockExpirationTime \"" ++ s ++ "\"")

/-- A handler that makes no capability call and returns nil. -/
def sampleHandlerOk : TaskHandler :=
  { run := fun _ => ([], HandlerOutcome.ok) }

/-- A handler that makes no capability call and returns an error. -/
def sampleHandlerErr : TaskHandler :=
  { run := fun _ => ([], HandlerOutcome.err "boom") }

/-- A handler that panics during execution. -/
def sampleHandlerPanic : TaskHandler :=
  { run := fun _ => ([], HandlerOutcome.panics "boom") }

/-- A handler that calls complete with one variable and returns nil. -/
def sampleHandlerComplete : TaskHandler :=
  { run := fun _ =>
      ([HandlerCall.callComplete [("result", StringVariable "ok")]],
       HandlerOutcome.ok) }

/-- A fetched task with the given id and topic and no variables. -/
def sampleTask (id topic : String) : ExternalTask :=
  { ID := id, TopicName := topic, WorkerID := "",
    LockExpirationTime := none, Variables := [] }

/-- A worker whose only registered topic panics. -/
def samplePanicWorker : Worker :=
  (Worker.New "worker-1").RegisterHandler "t" sampleHandlerPanic 60000 []

/-- A worker whose only registered topic errors. -/
def sampleErrWorker : Worker :=
  (Worker.New "worker-1").RegisterHandler "t2" sampleHandlerErr 60000 []

/-- A worker with one registered topic named known. -/
def sampleKnownWorker : Worker :=
  (Worker.New "worker-1").RegisterHandler "known" sampleHandlerComplete 60000 ["x"]

/-- A worker where the same topic name is registered twice. -/
def sampleDupWorker : Worker :=
  ((Worker.New "worker-1").RegisterHandler "t" sampleHandlerOk 60000 []).RegisterHandler
    "t" sampleHandlerErr 60000 []

/-- An adapter around a public handler that always fails with boom. -/
def sampleAdapter : handlerAdapter :=
  { handler := fun _ => some "boom" }

/-- A concrete parse model for the witness: accepts exactly one string
under the RFC3339 layout. -/
def sampleParse : String → String → Option GoTime :=
  fun f s =>
    if f = "2006-01-02T15:04:05Z07:00" && s = "2025-10-08T03:50:45Z" then
      some { raw := s }
    else none

/-- A decoded aux struct with the given raw lockExpirationTime string. -/
def sampleAux (lock : Option String) : AuxExternalTask :=
  { LockExpirationTime := lock, Alias := sampleTask "T1" "t" }

/-- Reading a map after a write: the written key returns the new value,
every other key is unchanged. -/
theorem mapLookup_mapSet {α : Type} (m : List (String × α)) (k : String) (v : α)
    (j : String) :
    mapLookup (mapSet m k v) j = if j = k then some v else mapLookup m j := by
  induction m with
  | nil =>
    simp only [mapSet, mapLookup]
    split_ifs with h1 h2 h2
    · rfl
    · exact absurd h1.symm h2
    · exact absurd h2.symm h1
    · rfl
  | cons kv rest ih =>
    obtain ⟨k', v'⟩ := kv
    by_cases hk : k' = k
    · subst hk
      by_cases hj : k' = j
      · subst hj
        simp [mapSet, mapLookup]
      · have hj' : ¬ j = k' := fun hh => hj hh.symm
        simp [mapSet, mapLookup, hj, hj']
    · by_cases hj : k' = j
      · subst hj
        have hjk : ¬ k' = k := hk
        simp [mapSet, mapLookup, hk, hjk]
      · have hj' : ¬ j = k' := fun hh => hj hh.symm
        simp [mapSet, mapLookup, hk, hj, hj', ih]

/-- Key membership after a map write. -/
theorem mem_keys_mapSet {α : Type} (m : List (String × α)) (k : String) (v : α)
    (j : String) :
    (j ∈ (mapSet m k v).map Prod.fst) ↔ j ∈ m.map Prod.fst ∨ j = k := by
  induction m with
  | nil => simp [mapSet]
  | cons kv rest ih =>
    obtain ⟨k', v'⟩ := kv
    by_cases hk : k' = k
    · subst hk
      simp [mapSet]
      tauto
    · simp [mapSet, hk, ih]
      tauto

/-- A map write preserves distinctness of the keys. -/
theorem nodup_keys_mapSet {α : Type} (m : List (String × α)) (k : String) (v : α)
    (h : (m.map Prod.fst).Nodup) : ((mapSet m k v).map Prod.fst).Nodup := by
  induction m with
  | nil => simp [mapSet]
  | cons kv rest ih =>
    obtain ⟨k', v'⟩ := kv
    rw [List.map_cons, List.nodup_cons] at h
    by_cases hk : k' = k
    · subst hk
      simpa [mapSet, List.nodup_cons] using h
    · rw [mapSet]
      simp only [hk, if_false, List.map_cons, List.nodup_cons]
      refine ⟨?_, ih h.2⟩
      rw [mem_keys_mapSet]
      rintro (hmem | rfl)
      · exact h.1 hmem
      · exact hk rfl

/-- Writing a fresh key appends the binding at the end of the list. -/
theorem mapSet_of_not_mem_keys {α : Type} (m : List (String × α)) (k : String)
    (v : α) (h : k ∉ m.map Prod.fst) : mapSet m k v = m ++ [(k, v)] := by
  induction m with
  | nil => rfl
  | cons kv rest ih =>
    obtain ⟨k', v'⟩ := kv
    rw [List.map_cons, List.mem_cons] at h
    push_neg at h
    have hk : ¬ k' = k := fun hh => h.1 hh.symm
    rw [mapSet]
    simp only [hk, if_false, List.cons_append, List.cons.injEq, true_and]
    exact ih h.2

/-- Writing a pairwise-fresh, duplicate-free batch of bindings into a map
appends them in order. -/
theorem setVars_append (vars : List (String × Variable)) :
    ∀ m : List (String × Variable), (vars.map Prod.fst).Nodup →
      (∀ j ∈ vars.map Prod.fst, j ∉ m.map Prod.fst) →
      setVars m vars = m ++ vars := by
  induction vars with
  | nil => intro m _ _; simp [setVars]
  | cons kv rest ih =>
    intro m hnd hdisj
    obtain ⟨k, v⟩ := kv
    rw [List.map_cons, List.nodup_cons] at hnd
    have hkm : k ∉ m.map Prod.fst := hdisj k (by simp)
    have step : setVars m ((k, v) :: rest) = setVars (mapSet m k v) rest := by
      simp [setVars]
    rw [step, mapSet_of_not_mem_keys m k v hkm, ih (m ++ [(k, v)]) hnd.2]
    · simp
    · intro j hj
      rw [List.map_append, List.mem_append]
      push_neg
      constructor
      · exact hdisj j (by simp [hj])
      · simp only [List.map_cons, List.map_nil, List.mem_singleton]
        rintro rfl
        exact hnd.1 hj

/-- setVars into the empty map of a duplicate-free binding list is that
list. -/
theorem setVars_nil (vars : List (String × Variable))
    (h : (vars.map Prod.fst).Nodup) : setVars [] vars = vars := by
  simpa using setVars_append vars [] h (by simp)

/-- Resolving a topic after a sequence of registrations: the last
registration for the topic wins, falling back to the initial registry. -/
theorem registerAll_lookup (regs : List RegEntry) :
    ∀ (w : Worker) (topic : String),
      mapLookup (registerAll w regs).handlers topic =
        match specLastRegistered regs topic with
        | some h => some h
        | none => mapLookup w.handlers topic := by
  induction regs with
  | nil => intro w topic; simp [registerAll, specLastRegistered]
  | cons r rest ih =>
    intro w topic
    rw [registerAll, ih]
    have hspec : specLastRegistered (r :: rest) topic =
        match specLastRegistered rest topic with
        | some h => some h
        | none => if r.topic = topic then some r.handler else none := by
      simp only [specLastRegistered, List.reverse_cons, List.find?_append]
      cases hfind : List.find? (fun q => q.topic = topic) rest.reverse with
      | none =>
        by_cases hr : r.topic = topic
        · simp [List.find?, hr, Option.or]
        · simp [List.find?, hr, Option.or]
      | some q => simp [Option.or]
    rw [hspec]
    cases hrest : specLastRegistered rest topic with
    | some h => simp
    | none =>
      simp only [Worker.RegisterHandler, mapLookup_mapSet]
      by_cases hr : r.topic = topic
      · subst hr
        simp
      · have hr' : ¬ topic = r.topic := fun hh => hr hh.symm
        simp [hr, hr']

/-- The topics slice after a sequence of registrations: one appended
TopicRequest per registration, in order. -/
theorem registerAll_topics (regs : List RegEntry) :
    ∀ w : Worker, (registerAll w regs).topics = w.topics ++ regs.map topicRequestOf := by
  induction regs with
  | nil => intro w; simp [registerAll]
  | cons r rest ih =>
    intro w
    rw [registerAll, ih]
    simp [Worker.RegisterHandler, topicRequestOf]

/-- The handlers map keeps its keys duplicate-free across any sequence of
registrations. -/
theorem registerAll_keys_nodup (regs : List RegEntry) :
    ∀ w : Worker, (w.handlers.map Prod.fst).Nodup →
      ((registerAll w regs).handlers.map Prod.fst).Nodup := by
  induction regs with
  | nil => intro w h; simpa [registerAll] using h
  | cons r rest ih =>
    intro w h
    rw [registerAll]
    exact ih _ (nodup_keys_mapSet _ _ _ h)

/-- The loop trace over a concatenation of iterations, none of which is
cancelled, is the concatenation of the traces. -/
theorem Start_append (w : Worker) (pre rest : List PollStep)
    (h : ∀ p ∈ pre, p.cancelled = false) :
    w.Start (pre ++ rest) = w.Start pre ++ w.Start rest := by
  induction pre with
  | nil => simp [Worker.Start]
  | cons p pre ih =>
    have hp : p.cancelled = false := h p (by simp)
    have hrest : ∀ q ∈ pre, q.cancelled = false :=
      fun q hq => h q (List.mem_cons_of_mem _ hq)
    cases hf : p.fetch with
    | error e => simp [Worker.Start, hp, hf, ih hrest]
    | ok ts =>
      cases ts with
      | nil => simp [Worker.Start, hp, hf, ih hrest]
      | cons t ts => simp [Worker.Start, hp, hf, ih hrest]

/-- The loop emits its stop event exactly when some iteration observes the
cancellation signal. -/
theorem Start_stopped_iff (w : Worker) (steps : List PollStep) :
    LoopEvent.stopped ∈ w.Start steps ↔ steps.any (fun s => s.cancelled) = true := by
  induction steps with
  | nil => simp [Worker.Start]
  | cons p rest ih =>
    cases hp : p.cancelled with
    | true => simp [Worker.Start, hp]
    | false =>
      cases hf : p.fetch with
      | error e => simp [Worker.Start, hp, hf, ih]
      | ok ts =>
        cases ts with
        | nil => simp [Worker.Start, hp, hf, ih]
        | cons t ts => simp [Worker.Start, hp, hf, ih]

/-- C1 counterexample: the claim says a handler panic is swallowed at the
dispatch boundary; on the code, processTask has no recover, so a panicking
handler makes processTask itself panic rather than return normally, shown
here for a concrete worker and task. -/
theorem processTask_panic_escapes_cex :
    (samplePanicWorker.processTask (sampleTask "T1" "t")).exit = GoExit.panicked "boom" ∧
    ¬ (samplePanicWorker.processTask (sampleTask "T1" "t")).exit = GoExit.normal := by
  decide

/-- C1 (amended): for every dispatched task whose handler returns an
uncaught error, the error is swallowed at the dispatch boundary (the
returned error is discarded and processTask returns normally), so a
handler error never crashes the poll loop or other in-flight tasks;
panics, by contrast, are not recovered and escape the dispatched
goroutine. -/
theorem processTask_swallows_handler_error (w : Worker) (task : ExternalTask)
    (h : TaskHandler) (calls : List HandlerCall) (msg : String)
    (hres : mapLookup w.handlers task.TopicName = some h)
    (hrun : h.run task = (calls, HandlerOutcome.err msg)) :
    (w.processTask task).exit = GoExit.normal ∧
    (w.processTask task).invoked = some (HandlerOutcome.err msg) := by
  simp [Worker.processTask, hres, hrun]

/-- C1 witness: a concrete erroring handler is swallowed. -/
theorem processTask_swallows_handler_error_witness :
    (sampleErrWorker.processTask (sampleTask "T1" "t2")).exit = GoExit.normal ∧
    (sampleErrWorker.processTask (sampleTask "T1" "t2")).invoked =
      some (HandlerOutcome.err "boom") :=
  processTask_swallows_handler_error sampleErrWorker (sampleTask "T1" "t2")
    sampleHandlerErr [] "boom" rfl rfl

/-- C2: a fetched task whose topic has no registered handler causes no
handler invocation, only a logged inconsistency, no unlock request, and a
normal return; handler invocations happen for exactly the fetched tasks
whose topic is registered. -/
theorem dispatch_routes_exactly_registered :
    (∀ (w : Worker) (task : ExternalTask),
        mapLookup w.handlers task.TopicName = none →
        w.processTask task =
          { effects := [Effect.logError ("No handler registered for topic " ++ task.TopicName)],
            invoked := none, exit := GoExit.normal }) ∧
    (∀ (w : Worker) (task : ExternalTask),
        (w.processTask task).invoked.isSome = (mapLookup w.handlers task.TopicName).isSome) ∧
    (∀ (w : Worker) (task : ExternalTask) (req : UnlockRequest),
        Effect.sentUnlock req ∉ (w.processTask task).effects) ∧
    (∀ (w : Worker) (tasks : List ExternalTask),
        tasks.filter (fun t => (w.processTask t).invoked.isSome)
          = tasks.filter (fun t => (mapLookup w.handlers t.TopicName).isSome)) := by
  refine ⟨?_, ?_, ?_, ?_⟩
  · intro w task h
    simp [Worker.processTask, h]
  · intro w task
    cases h : mapLookup w.handlers task.TopicName with
    | none => simp [Worker.processTask, h]
    | some hd =>
      rcases hr : hd.run task with ⟨calls, outcome⟩
      simp [Worker.processTask, h, hr]
  · intro w task req
    cases h : mapLookup w.handlers task.TopicName with
    | none => simp [Worker.processTask, h]
    | some hd =>
      rcases hr : hd.run task with ⟨calls, outcome⟩
      simp only [Worker.processTask, h, hr, List.mem_map]
      rintro ⟨call, -, hc⟩
      cases call <;> simp [interpCall] at hc
  · intro w tasks
    refine List.filter_congr ?_
    intro t _
    cases h : mapLookup w.handlers t.TopicName with
    | none => simp [Worker.processTask, h]
    | some hd =>
      rcases hr : hd.run t with ⟨calls, outcome⟩
      simp [Worker.processTask, h, hr]

/-- C2 witness: a concrete worker registered only for topic known, handed
a task of an unknown topic, logs and drops it without unlocking. -/
theorem dispatch_routes_exactly_registered_witness :
    sampleKnownWorker.processTask (sampleTask "T9" "unknown") =
      { effects := [Effect.logError ("No handler registered for topic " ++ "unknown")],
        invoked := none, exit := GoExit.normal } :=
  dispatch_routes_exactly_registered.1 sampleKnownWorker (sampleTask "T9" "unknown") rfl

/-- C5: whenever the wrapped handler returns a non-nil error, the adapter
calls fail exactly once with the generic message, the handler error text
as details, retries 3 and retryTimeout 30000, and propagates the error. -/
theorem adapter_auto_fail_policy (ha : handlerAdapter) (task : ExternalTask)
    (e : String) (h : ha.handler task = some e) :
    ha.Handle task =
      ([{ errorMessage := "Task processing failed", errorDetails := e,
          retries := 3, retryTimeout := 30000 }], some e) := by
  simp [handlerAdapter.Handle, h]

/-- C5 witness: a handler error boom produces a fail call with retries 3,
retryTimeout 30000 and details boom. -/
theorem adapter_auto_fail_policy_witness :
    sampleAdapter.Handle (sampleTask "T2" "t2") =
      ([{ errorMessage := "Task processing failed", errorDetails := "boom",
          retries := 3, retryTimeout := 30000 }], some "boom") :=
  adapter_auto_fail_policy sampleAdapter (sampleTask "T2" "t2") "boom" rfl

/-- C6: for any sequence of registrations performed on a fresh worker,
resolving a topic in the handlers map returns exactly the most recently
registered handler for that topic name (last write wins); registration is
a total function, so no error is raised on re-registration. -/
theorem resolve_last_write_wins (workerID : String) (regs : List RegEntry)
    (topic : String) :
    mapLookup (registerAll (Worker.New workerID) regs).handlers topic =
      specLastRegistered regs topic := by
  rw [registerAll_lookup]
  cases h : specLastRegistered regs topic with
  | some hd => simp
  | none => simp [Worker.New, mapLookup]

/-- C7 counterexample: registering the same topic name twice leaves two
entries for that topic in the subscriptions of the poll request, refuting
the claim that the list sent on each poll has at most one entry per topic
name. -/
theorem duplicate_topic_subscription_cex :
    ¬ ((sampleDupWorker.fetchAndLock.Topics.filter
          (fun tr => tr.TopicName = "t")).length ≤ 1) := by
  decide

/-- C7 (amended): registering an already registered topic name replaces
the handler, so topicName stays a unique key of the handlers map; the
subscription list, however, gets one appended entry per registration call,
so the poll request may carry several entries for the same topic name. -/
theorem register_replaces_handler_appends_topic (workerID : String)
    (regs : List RegEntry) :
    (((registerAll (Worker.New workerID) regs).handlers.map Prod.fst).Nodup) ∧
    (registerAll (Worker.New workerID) regs).fetchAndLock.Topics
      = regs.map topicRequestOf := by
  constructor
  · exact registerAll_keys_nodup regs _ (by simp [Worker.New])
  · rw [Worker.fetchAndLock, registerAll_topics]
    simp [Worker.New]

/-- C3: a failed fetch never terminates the poll loop — the stop event
occurs exactly when an iteration observes cancellation — and after any
number of consecutive fetch errors (each logged and followed by the
pollInterval sleep) a successful fetch still dispatches the returned
tasks. -/
theorem fetch_errors_not_fatal :
    (∀ (w : Worker) (steps : List PollStep),
        LoopEvent.stopped ∈ w.Start steps ↔ steps.any (fun s => s.cancelled) = true) ∧
    (∀ (w : Worker) (errs : List String) (tasks : List ExternalTask)
        (rest : List PollStep), tasks ≠ [] →
        w.Start ((errs.map (fun e => { cancelled := false, fetch := Except.error e })) ++
            { cancelled := false, fetch := Except.ok tasks } :: rest)
          = (errs.map (fun e => [LoopEvent.fetchFailed e, LoopEvent.sleptPollInterval])).flatten ++
            LoopEvent.dispatched tasks :: LoopEvent.sleptBriefPause :: w.Start rest) := by
  constructor
  · exact Start_stopped_iff
  · intro w errs tasks rest hts
    rw [Start_append w _ _ (by intro p hp; simp at hp; obtain ⟨e, -, rfl⟩ := hp; rfl)]
    congr 1
    · induction errs with
      | nil => simp [Worker.Start]
      | cons e errs ih => simpa [Worker.Start] using ih
    · cases tasks with
      | nil => exact absurd rfl hts
      | cons t ts => simp [Worker.Start]

/-- C3 witness: two consecutive fetch errors followed by a success still
dispatch. -/
theorem fetch_errors_not_fatal_witness :
    (Worker.New "w").Start
        ((["e1", "e2"].map (fun e => { cancelled := false, fetch := Except.error e })) ++
          { cancelled := false, fetch := Except.ok [sampleTask "T1" "t"] } :: [])
      = (["e1", "e2"].map
            (fun e => [LoopEvent.fetchFailed e, LoopEvent.sleptPollInterval])).flatten ++
          LoopEvent.dispatched [sampleTask "T1" "t"] :: LoopEvent.sleptBriefPause ::
            (Worker.New "w").Start [] :=
  fetch_errors_not_fatal.2 (Worker.New "w") ["e1", "e2"] [sampleTask "T1" "t"] []
    (by simp)

/-- C4: the cancellation signal is checked at the top of every iteration —
for any prefix of uncancelled iterations, the first cancelled iteration
makes Start emit the stop event and return with no further fetch — and
Start never returns its stop event unless some iteration observed
cancellation. The trace is a function of the fetch results alone: the
outcomes of already-dispatched tasks never appear in the loop state, so
cancellation neither stops nor waits on them. -/
theorem cancellation_stops_scheduling :
    (∀ (w : Worker) (pre : List PollStep) (s : PollStep) (rest : List PollStep),
        (∀ p ∈ pre, p.cancelled = false) → s.cancelled = true →
        w.Start (pre ++ s :: rest) = w.Start pre ++ [LoopEvent.stopped]) ∧
    (∀ (w : Worker) (steps : List PollStep),
        steps.any (fun s => s.cancelled) = false →
        LoopEvent.stopped ∉ w.Start steps) := by
  constructor
  · intro w pre s rest hpre hs
    rw [Start_append w pre (s :: rest) hpre]
    congr 1
    simp [Worker.Start, hs]
  · intro w steps h
    rw [Start_stopped_iff, h]
    simp

/-- C4 witness: cancellation observed right after a dispatching iteration
stops the loop at once, with no fetch for the remaining iterations. -/
theorem cancellation_stops_scheduling_witness :
    (Worker.New "w").Start
        ([{ cancelled := false, fetch := Except.ok [sampleTask "T1" "t"] }] ++
          { cancelled := true, fetch := Except.ok [] } ::
            [{ cancelled := false, fetch := Except.error "x" }])
      = (Worker.New "w").Start
          [{ cancelled := false, fetch := Except.ok [sampleTask "T1" "t"] }] ++
          [LoopEvent.stopped] :=
  cancellation_stops_scheduling.1 (Worker.New "w")
    [{ cancelled := false, fetch := Except.ok [sampleTask "T1" "t"] }]
    { cancelled := true, fetch := Except.ok [] }
    [{ cancelled := false, fetch := Except.error "x" }]
    (by simp) rfl

/-- C8: the complete and fail closures handed to a dispatched handler are
bound to that task id and the shared worker identity — complete sends a
request for exactly that taskID with the workerId and the supplied
variables (written into an initially empty map, hence equal to the
supplied map when its keys are distinct), fail sends a request for exactly
that taskID with workerId, message, details, retries and retry timeout —
and dispatch routes every capability call of the handler through these
closures. -/
theorem task_context_bound :
    (∀ (w : Worker) (task : ExternalTask) (vars : List (String × Variable)),
        completeFuncFor w task vars =
          { taskID := task.ID, WorkerID := w.workerID,
            Variables := setVars [] vars, LocalVariables := [] }) ∧
    (∀ (w : Worker) (task : ExternalTask) (vars : List (String × Variable)),
        (vars.map Prod.fst).Nodup → (completeFuncFor w task vars).Variables = vars) ∧
    (∀ (w : Worker) (task : ExternalTask) (m d : String) (r t : Int),
        failFuncFor w task m d r t =
          { taskID := task.ID, WorkerID := w.workerID, ErrorMessage := m,
            ErrorDetails := d, Retries := r, RetryTimeout := t }) ∧
    (∀ (w : Worker) (task : ExternalTask) (h : TaskHandler),
        mapLookup w.handlers task.TopicName = some h →
        (w.processTask task).effects = (h.run task).1.map (interpCall w task)) := by
  refine ⟨?_, ?_, ?_, ?_⟩
  · intro w task vars
    rfl
  · intro w task vars h
    show setVars [] vars = vars
    exact setVars_nil vars h
  · intro w task m d r t
    rfl
  · intro w task h hres
    rcases hr : h.run task with ⟨calls, outcome⟩
    simp [Worker.processTask, hres, hr]

/-- C8 witness: the scenario of the spec — task T1, one variable result
with the String value ok — reaches the complete endpoint with that task
id, the worker id and exactly that variable map; the erroring topic
produces the corresponding routed effects. -/
theorem task_context_bound_witness :
    (completeFuncFor sampleKnownWorker (sampleTask "T1" "known")
        [("result", StringVariable "ok")]).Variables
      = [("result", StringVariable "ok")] ∧
    (sampleKnownWorker.processTask (sampleTask "T1" "known")).effects
      = (sampleHandlerComplete.run (sampleTask "T1" "known")).1.map
          (interpCall sampleKnownWorker (sampleTask "T1" "known")) :=
  ⟨task_context_bound.2.1 sampleKnownWorker (sampleTask "T1" "known")
      [("result", StringVariable "ok")] (by decide),
   task_context_bound.2.2.2 sampleKnownWorker (sampleTask "T1" "known")
      sampleHandlerComplete rfl⟩

/-- C9: JSONVariable and ListVariable are total — on a marshalling failure
they return a String-typed variable whose value is the error description
(no panic, no error result), and on success an Object-typed variable
carrying the JSON text with a non-nil valueInfo. -/
theorem json_variable_total :
    (∀ (v : GoValue) (e : String), jsonMarshal v = Except.error e →
        JSONVariable v =
          { Value := GoValue.str ("ERROR: failed to marshal JSON: " ++ e),
            type_ := "String", ValueInfo := none }) ∧
    (∀ (v : GoValue) (s : String), jsonMarshal v = Except.ok s →
        (JSONVariable v).type_ = "Object" ∧ (JSONVariable v).Value = GoValue.str s ∧
        (JSONVariable v).ValueInfo ≠ none) ∧
    (∀ (xs : List GoValue) (e : String), jsonMarshalList xs = Except.error e →
        ListVariable xs =
          { Value := GoValue.str ("ERROR: failed to marshal list: " ++ e),
            type_ := "String", ValueInfo := none }) ∧
    (∀ (xs : List GoValue) (s : String), jsonMarshalList xs = Except.ok s →
        (ListVariable xs).type_ = "Object" ∧ (ListVariable xs).Value = GoValue.str s ∧
        (ListVariable xs).ValueInfo ≠ none) := by
  refine ⟨?_, ?_, ?_, ?_⟩
  · intro v e h
    simp [JSONVariable, h]
  · intro v s h
    simp [JSONVariable, h]
  · intro xs e h
    simp [ListVariable, h]
  · intro xs s h
    simp [ListVariable, h]

/-- C9 witness: an unsupported value marshals to the String-typed error
variable; a supported value marshals to an Object-typed variable with
valueInfo, for both constructors. -/
theorem json_variable_total_witness :
    (JSONVariable (GoValue.unsupported "chan int") =
      { Value := GoValue.str ("ERROR: failed to marshal JSON: " ++
          ("json: unsupported type: " ++ "chan int")),
        type_ := "String", ValueInfo := none }) ∧
    ((JSONVariable (GoValue.bool true)).type_ = "Object" ∧
      (JSONVariable (GoValue.bool true)).Value = GoValue.str "true" ∧
      (JSONVariable (GoValue.bool true)).ValueInfo ≠ none) ∧
    (ListVariable [GoValue.unsupported "func()"] =
      { Value := GoValue.str ("ERROR: failed to marshal list: " ++
          ("json: unsupported type: " ++ "func()")),
        type_ := "String", ValueInfo := none }) ∧
    ((ListVariable [GoValue.bool true]).type_ = "Object" ∧
      (ListVariable [GoValue.bool true]).Value = GoValue.str "[true]" ∧
      (ListVariable [GoValue.bool true]).ValueInfo ≠ none) :=
  ⟨json_variable_total.1 _ _ rfl,
   json_variable_total.2.1 _ "true" rfl,
   json_variable_total.2.2.1 _ _ rfl,
   json_variable_total.2.2.2 _ "[true]" rfl⟩

/-- The format loop returns none exactly when no format parses the
string. -/
theorem tryParseFormats_eq_none (parse : String → String → Option GoTime)
    (fs : List String) (s : String) :
    tryParseFormats parse fs s = none ↔ ∀ f ∈ fs, parse f s = none := by
  induction fs with
  | nil => simp [tryParseFormats]
  | cons f rest ih =>
    cases h : parse f s with
    | some t => simp [tryParseFormats, h]
    | none => simp [tryParseFormats, h, ih]

/-- C10: unmarshalling succeeds with a nil LockExpirationTime when the
lockExpirationTime field is absent or the empty string; for a non-empty
string it succeeds (with a parsed lock time) if and only if the string
parses under at least one of the four accepted formats, and returns an
error otherwise. -/
theorem unmarshal_lock_expiration :
    (∀ (parse : String → String → Option GoTime) (aux : AuxExternalTask),
        aux.LockExpirationTime = none →
        ExternalTask.UnmarshalJSON parse aux =
          Except.ok { aux.Alias with LockExpirationTime := none }) ∧
    (∀ (parse : String → String → Option GoTime) (aux : AuxExternalTask),
        aux.LockExpirationTime = some "" →
        ExternalTask.UnmarshalJSON parse aux =
          Except.ok { aux.Alias with LockExpirationTime := none }) ∧
    (∀ (parse : String → String → Option GoTime) (aux : AuxExternalTask) (s : String),
        aux.LockExpirationTime = some s → s ≠ "" →
        ((∃ task, ExternalTask.UnmarshalJSON parse aux = Except.ok task ∧
            task.LockExpirationTime.isSome) ↔
          ∃ f ∈ lockTimeFormats, (parse f s).isSome)) ∧
    (∀ (parse : String → String → Option GoTime) (aux : AuxExternalTask) (s : String),
        aux.LockExpirationTime = some s → s ≠ "" →
        (¬ ∃ f ∈ lockTimeFormats, (parse f s).isSome) →
        ExternalTask.UnmarshalJSON parse aux =
          Except.error ("failed to parse lockExpirationTime \"" ++ s ++ "\"")) := by
  refine ⟨?_, ?_, ?_, ?_⟩
  · intro parse aux h
    simp [ExternalTask.UnmarshalJSON, h]
  · intro parse aux h
    simp [ExternalTask.UnmarshalJSON, h]
  · intro parse aux s hs hne
    cases htry : tryParseFormats parse lockTimeFormats s with
    | some t =>
      constructor
      · intro _
        by_contra hnone
        push_neg at hnone
        have hall : tryParseFormats parse lockTimeFormats s = none := by
          rw [tryParseFormats_eq_none]
          intro f hf
          have hfs := hnone f hf
          cases hp : parse f s with
          | none => rfl
          | some t2 =>
            rw [hp] at hfs
            simp at hfs
        rw [hall] at htry
        cases htry
      · intro _
        refine ⟨{ aux.Alias with LockExpirationTime := some t }, ?_, by simp⟩
        simp [ExternalTask.UnmarshalJSON, hs, hne, htry]
    | none =>
      have hall := (tryParseFormats_eq_none parse _ s).mp htry
      constructor
      · rintro ⟨task, htask, -⟩
        rw [ExternalTask.UnmarshalJSON, hs] at htask
        simp [hne, htry] at htask
      · rintro ⟨f, hf, hsome⟩
        rw [hall f hf] at hsome
        cases hsome
  · intro parse aux s hs hne hnone
    push_neg at hnone
    have hall : tryParseFormats parse lockTimeFormats s = none := by
      rw [tryParseFormats_eq_none]
      intro f hf
      have hfs := hnone f hf
      cases hp : parse f s with
      | none => rfl
      | some t2 =>
        rw [hp] at hfs
        simp at hfs
    simp [ExternalTask.UnmarshalJSON, hs, hne, hall]

/-- C10 witness: an absent field gives a nil lock time, a parsable
RFC3339 string succeeds, and a string no format accepts yields the parse
error. -/
theorem unmarshal_lock_expiration_witness :
    (ExternalTask.UnmarshalJSON sampleParse (sampleAux none) =
        Except.ok { sampleTask "T1" "t" with LockExpirationTime := none }) ∧
    (∃ task, ExternalTask.UnmarshalJSON sampleParse
          (sampleAux (some "2025-10-08T03:50:45Z")) = Except.ok task ∧
        task.LockExpirationTime.isSome) ∧
    (ExternalTask.UnmarshalJSON sampleParse (sampleAux (some "garbage")) =
        Except.error ("failed to parse lockExpirationTime \"" ++ "garbage" ++ "\"")) :=
  ⟨unmarshal_lock_expiration.1 sampleParse (sampleAux none) rfl,
   (unmarshal_lock_expiration.2.2.1 sampleParse (sampleAux (some "2025-10-08T03:50:45Z"))
        "2025-10-08T03:50:45Z" rfl (by decide)).mpr
      ⟨"2006-01-02T15:04:05Z07:00", by decide, by decide⟩,
   unmarshal_lock_expiration.2.2.2 sampleParse (sampleAux (some "garbage"))
      "garbage" rfl (by decide) (by decide)⟩
